import Mathlib

/-
Verification of the WebRTC negotiation core of the spell-vision repository.

The code under verification is the current webrtc module (the revision that
defines WebRTCSignaling.init, WebRTCPeer.sendData, createDataChannel and
getDataChannelState, i.e. the only revision consistent with the calls made by
src/src/components/remote-feed.tsx) together with remote-feed.tsx itself.

The browser primitives (RTCPeerConnection description and candidate
operations) and the Firestore relay are external platforms; they are modelled
here with their documented semantics: the W3C signaling-state transition rules
for setLocalDescription / setRemoteDescription / addIceCandidate, and the
Firestore rule that a snapshot listener first fires with every document that
already exists in the collection reported as an added change.
-/

namespace SpellVision

/-- Message kinds of the SignalingMessage interface: the string literals
ready, offer, answer and ice-candidate of the source, as an inductive. -/
inductive MsgType
  | ready
  | offer
  | answer
  | iceCandidate
  deriving DecidableEq

/-- Session description types of the browser RTCSessionDescription. -/
inductive RTCSdpType
  | offer
  | answer
  deriving DecidableEq

/-- A session description: its sdp body is opaque, modelled as a Nat tag. -/
structure SessionDesc where
  descType : RTCSdpType
  sdp : Nat
  deriving DecidableEq

/-- The data field of a SignalingMessage: null for ready, a session
description for offer and answer, a candidate blob for ice-candidate. -/
inductive MsgData
  | noData
  | desc (d : SessionDesc)
  | cand (c : Nat)
  deriving DecidableEq

/-- The SignalingMessage interface of the webrtc module. The field names
from and to of the source become from_ and to_ (both are Lean keywords). -/
structure SignalingMessage where
  type : MsgType
  data : MsgData
  from_ : String
  to_ : String
  deriving DecidableEq

/-- The peer id of the initiating side, the string literal used by the source. -/
def callerId : String := "caller"

/-- The peer id of the responding side, the string literal used by the source. -/
def calleeId : String := "callee"

/-- Browser signaling states relevant to this code path. -/
inductive RTCSignalingState
  | stable
  | haveLocalOffer
  | haveRemoteOffer
  deriving DecidableEq

/-- Errors thrown by the modelled browser primitives. -/
inductive RTCError
  | invalidState
  | malformedDescription
  | malformedCandidate
  | candidateBeforeRemoteDescription
  deriving DecidableEq

/-- The RTCPeerConnection state observable through this code path: the
signaling state, the two description slots, the accepted remote candidates,
and a counter supplying fresh sdp bodies for createOffer / createAnswer. -/
structure RTCPeerConnection where
  signalingState : RTCSignalingState
  localDescription : Option SessionDesc
  remoteDescription : Option SessionDesc
  remoteCandidates : List Nat
  sdpCounter : Nat
  deriving DecidableEq

/-- A freshly constructed RTCPeerConnection. -/
def pcFresh : RTCPeerConnection :=
  ⟨RTCSignalingState.stable, none, none, [], 0⟩

/-- Browser createOffer: returns a fresh offer description; legal in any
signaling state and mutates none of the description slots. -/
def createOffer (pc : RTCPeerConnection) : SessionDesc × RTCPeerConnection :=
  (⟨RTCSdpType.offer, pc.sdpCounter⟩, { pc with sdpCounter := pc.sdpCounter + 1 })

/-- Browser createAnswer: legal only while a remote offer is set
(signaling state have-remote-offer), else it rejects. -/
def createAnswer (pc : RTCPeerConnection) : Except RTCError (SessionDesc × RTCPeerConnection) :=
  match pc.signalingState with
  | RTCSignalingState.haveRemoteOffer =>
      Except.ok (⟨RTCSdpType.answer, pc.sdpCounter⟩, { pc with sdpCounter := pc.sdpCounter + 1 })
  | _ => Except.error RTCError.invalidState

/-- Browser setLocalDescription, per the W3C state rules: a local offer is
legal in stable or have-local-offer and moves to have-local-offer; a local
answer is legal in have-remote-offer and moves to stable. -/
def setLocalDescription (pc : RTCPeerConnection) (d : SessionDesc) :
    Except RTCError RTCPeerConnection :=
  match d.descType, pc.signalingState with
  | RTCSdpType.offer, RTCSignalingState.stable =>
      Except.ok { pc with signalingState := RTCSignalingState.haveLocalOffer,
                          localDescription := some d }
  | RTCSdpType.offer, RTCSignalingState.haveLocalOffer =>
      Except.ok { pc with signalingState := RTCSignalingState.haveLocalOffer,
                          localDescription := some d }
  | RTCSdpType.answer, RTCSignalingState.haveRemoteOffer =>
      Except.ok { pc with signalingState := RTCSignalingState.stable,
                          localDescription := some d }
  | _, _ => Except.error RTCError.invalidState

/-- Browser setRemoteDescription, per the W3C state rules: a remote offer is
legal in stable or have-remote-offer and moves to have-remote-offer; a remote
answer is legal in have-local-offer and moves to stable. A payload that is
not a session description fails to parse and rejects. -/
def setRemoteDescription (pc : RTCPeerConnection) (data : MsgData) :
    Except RTCError RTCPeerConnection :=
  match data with
  | MsgData.desc d =>
      match d.descType, pc.signalingState with
      | RTCSdpType.offer, RTCSignalingState.stable =>
          Except.ok { pc with signalingState := RTCSignalingState.haveRemoteOffer,
                              remoteDescription := some d }
      | RTCSdpType.offer, RTCSignalingState.haveRemoteOffer =>
          Except.ok { pc with signalingState := RTCSignalingState.haveRemoteOffer,
                              remoteDescription := some d }
      | RTCSdpType.answer, RTCSignalingState.haveLocalOffer =>
          Except.ok { pc with signalingState := RTCSignalingState.stable,
                              remoteDescription := some d }
      | _, _ => Except.error RTCError.invalidState
  | _ => Except.error RTCError.malformedDescription

/-- Browser addIceCandidate: rejects while no remote description is set, and
rejects a payload that does not parse as a candidate; otherwise appends. -/
def addIceCandidate (pc : RTCPeerConnection) (data : MsgData) :
    Except RTCError RTCPeerConnection :=
  match data with
  | MsgData.cand c =>
      match pc.remoteDescription with
      | some _ => Except.ok { pc with remoteCandidates := pc.remoteCandidates ++ [c] }
      | none => Except.error RTCError.candidateBeforeRemoteDescription
  | _ => Except.error RTCError.malformedCandidate

/-- The offer message sent by the ready branch of handleSignalingMessage:
the source hardcodes from caller, to callee. -/
def offerMessage (d : SessionDesc) : SignalingMessage :=
  ⟨MsgType.offer, MsgData.desc d, callerId, calleeId⟩

/-- The answer message sent by the offer branch of handleSignalingMessage:
the source hardcodes from callee, to caller. -/
def answerMessage (d : SessionDesc) : SignalingMessage :=
  ⟨MsgType.answer, MsgData.desc d, calleeId, callerId⟩

/-- The try block of WebRTCPeer.handleSignalingMessage of the current webrtc
module, translated switch arm by switch arm. An error result carries the
peer-connection state and the messages already sent at the point of the
throw, since mutations before a throw persist. The ready arm acts only for
the caller; the offer arm unconditionally sets the remote description,
creates and sets an answer and sends it; the answer arm unconditionally sets
the remote description; the ice-candidate arm adds the candidate. The source
has no signaling-state guards in this revision. -/
def tryHandle (peerId : String) (pc : RTCPeerConnection) (message : SignalingMessage) :
    Except (RTCPeerConnection × List SignalingMessage × RTCError)
           (RTCPeerConnection × List SignalingMessage) :=
  match message.type with
  | MsgType.ready =>
      if peerId = callerId then
        match createOffer pc with
        | (offer, pc1) =>
          match setLocalDescription pc1 offer with
          | Except.error e => Except.error (pc1, [], e)
          | Except.ok pc2 => Except.ok (pc2, [offerMessage offer])
      else Except.ok (pc, [])
  | MsgType.offer =>
      match setRemoteDescription pc message.data with
      | Except.error e => Except.error (pc, [], e)
      | Except.ok pc1 =>
        match createAnswer pc1 with
        | Except.error e => Except.error (pc1, [], e)
        | Except.ok (answer, pc2) =>
          match setLocalDescription pc2 answer with
          | Except.error e => Except.error (pc2, [], e)
          | Except.ok pc3 => Except.ok (pc3, [answerMessage answer])
  | MsgType.answer =>
      match setRemoteDescription pc message.data with
      | Except.error e => Except.error (pc, [], e)
      | Except.ok pc1 => Except.ok (pc1, [])
  | MsgType.iceCandidate =>
      match addIceCandidate pc message.data with
      | Except.error e => Except.error (pc, [], e)
      | Except.ok pc1 => Except.ok (pc1, [])

/-- Result of one handler invocation: the new peer-connection state, the
messages handed to signaling.sendMessage, and the error caught and logged by
the catch clause, if the try block threw. -/
structure HandlerResult where
  pc : RTCPeerConnection
  sent : List SignalingMessage
  caught : Option RTCError
  deriving DecidableEq

/-- WebRTCPeer.handleSignalingMessage of the current webrtc module: the whole
switch runs inside try/catch, so a throw is caught and logged and the partial
mutations up to the throw persist. -/
def handleSignalingMessage (peerId : String) (pc : RTCPeerConnection)
    (message : SignalingMessage) : HandlerResult :=
  match tryHandle peerId pc message with
  | Except.ok (pc1, ms) => ⟨pc1, ms, none⟩
  | Except.error (pc1, ms, e) => ⟨pc1, ms, some e⟩

/-- A document in the Firestore messages collection of a room: a reference id
and the stored signaling message. -/
structure MessageDoc where
  id : Nat
  msg : SignalingMessage
  deriving DecidableEq

/-- Firestore deleteDoc by document reference. -/
def deleteDocById (store : List MessageDoc) (id : Nat) : List MessageDoc :=
  store.filter (fun d => d.id != id)

/-- The body of the snapshot callback of WebRTCSignaling.listenForMessages in
the current webrtc module, for one document reported as an added change: when
the message is addressed to this peer (to equals peerId, the only condition
this revision checks) it is handed to onMessage and its document deleted;
otherwise the document is left untouched. Returns the updated store and the
messages handed to onMessage. -/
def listenerOnAdded (peerId : String) (store : List MessageDoc) (doc : MessageDoc) :
    List MessageDoc × List SignalingMessage :=
  if doc.msg.to_ = peerId then
    (deleteDocById store doc.id, [doc.msg])
  else (store, [])

/-- The delivery predicate the spec states for the relay client: deliver and
delete when to equals the own role, or to is all, or to is other and the
sender is not the own role. Stated from the spec wording, to be compared with
listenerOnAdded, the predicate the source actually checks. -/
def specDelivers (peerId : String) (m : SignalingMessage) : Bool :=
  m.to_ == peerId || m.to_ == "all" || (m.to_ == "other" && m.from_ != peerId)

/-- The first firing of the snapshot listener registered by
listenForMessages: per Firestore semantics the initial snapshot reports every
document already in the collection as an added change, and the callback body
runs on each in order. Returns the store after those callback runs and the
messages handed to onMessage. -/
def listenerInitialSnapshot (peerId : String) (store : List MessageDoc) :
    List MessageDoc × List SignalingMessage :=
  store.foldl
    (fun acc doc =>
      match listenerOnAdded peerId acc.1 doc with
      | (st, ms) => (st, acc.2 ++ ms))
    (store, [])

/-- WebRTCSignaling.init of the current webrtc module: it starts the listener
first (whose initial snapshot processes every pre-existing document as an
added change), then fetches the remaining documents with getDocs and deletes
each. The store ends empty; the second component is the list of messages that
reached onMessage during init. Outbound messages produced by onMessage are
modelled separately by handleSignalingMessage and not appended here. -/
def signalingInit (peerId : String) (store : List MessageDoc) :
    List MessageDoc × List SignalingMessage :=
  match listenerInitialSnapshot peerId store with
  | (_, delivered) => ([], delivered)

/-- One added-document event as seen from inside the relay listener callback
of the current webrtc module, including the call into onMessage, which is
WebRTCPeer.handleSignalingMessage. The Except layer records any exception
that would escape the callback; handleSignalingMessage catches internally, so
the branches below construct ok results only. -/
def processRelayMessage (peerId : String) (pc : RTCPeerConnection)
    (store : List MessageDoc) (doc : MessageDoc) :
    Except RTCError (RTCPeerConnection × List MessageDoc × List SignalingMessage) :=
  if doc.msg.to_ = peerId then
    match handleSignalingMessage peerId pc doc.msg with
    | r => Except.ok (r.pc, deleteDocById store doc.id, r.sent)
  else Except.ok (pc, store, [])

/-- Data payloads of the side transport are opaque structured values,
modelled as Nat tags. -/
abbrev Json : Type := Nat

/-- JSON.stringify on a payload. -/
def stringifyJson (v : Json) : String := toString (v : Nat)

/-- Numeric value of a decimal digit character, none otherwise. -/
def digitVal (c : Char) : Option Nat :=
  if c = '0' then some 0 else if c = '1' then some 1 else if c = '2' then some 2
  else if c = '3' then some 3 else if c = '4' then some 4 else if c = '5' then some 5
  else if c = '6' then some 6 else if c = '7' then some 7 else if c = '8' then some 8
  else if c = '9' then some 9 else none

/-- Parse a character list as a decimal numeral, none on any other input. -/
def parseDigits : List Char → Option Nat → Option Nat
  | [], acc => acc
  | c :: rest, acc =>
      match digitVal c, acc with
      | some d, some n => parseDigits rest (some (n * 10 + d))
      | some d, none => parseDigits rest (some d)
      | none, _ => none

/-- JSON.parse on received channel data: inverts stringifyJson and fails on
every other string; none models a parse failure (a thrown SyntaxError). -/
def parseJson (s : String) : Option Json := parseDigits s.data none

/-- Browser RTCDataChannel ready states. -/
inductive RTCDataChannelState
  | connecting
  | open_
  | closing
  | closed
  deriving DecidableEq

/-- The data channel as observed by sendData and the onmessage handler. -/
structure RTCDataChannel where
  readyState : RTCDataChannelState
  deriving DecidableEq

/-- WebRTCPeer.sendData of the current webrtc module: when the optional chain
dataChannel?.readyState equals open the payload is stringified and handed to
dataChannel.send, otherwise the function just returns. The first component is
the list of strings handed to send; the second models any error returned or
raised to the caller, which this source never produces. -/
def sendData (dataChannel : Option RTCDataChannel) (data : Json) :
    List String × Option String :=
  match dataChannel with
  | some dc =>
      match dc.readyState with
      | RTCDataChannelState.open_ => ([stringifyJson data], none)
      | _ => ([], none)
  | none => ([], none)

/-- The onmessage handler installed by setupDataChannelListeners in the
current webrtc module: when an onDataReceived callback is registered it is
invoked with JSON.parse of the raw data; there is no try/catch in this
revision, so a parse failure throws out of the handler, modelled by the third
component. Components: the channel (untouched by this handler), the list of
values passed to onDataReceived, and the escaped exception if any. -/
def dataChannelOnMessage (dc : RTCDataChannel) (hasHandler : Bool) (raw : String) :
    RTCDataChannel × List Json × Option String :=
  (dc,
   if hasHandler then
     match parseJson raw with
     | some v => ([v], none)
     | none => ([], some "SyntaxError")
   else ([], none))

/-- The parts of a WebRTCPeer that its close method touches: whether a data
channel was ever created or received, and whether the signaling listener
holds an unsubscribe function. -/
structure WebRTCPeerHandle where
  hasDataChannel : Bool
  hasListener : Bool
  deriving DecidableEq

/-- Teardown side effects, in the order they are performed. -/
inductive CloseEffect
  | closeDataChannel
  | closePeerConnection
  | stopListener
  deriving DecidableEq

/-- WebRTCPeer.close of the current webrtc module: dataChannel?.close(), then
peerConnection.close(), then signaling.close(), which unsubscribes the
Firestore listener when one is registered. -/
def peerCloseEffects (p : WebRTCPeerHandle) : List CloseEffect :=
  (if p.hasDataChannel then [CloseEffect.closeDataChannel] else [])
    ++ [CloseEffect.closePeerConnection]
    ++ (if p.hasListener then [CloseEffect.stopListener] else [])

/-- The component state of RemoteFeed that disconnect touches: the current
peer instance, the isConnected flag and the srcObject of the remote video
element. -/
structure RemoteFeedState where
  peer : Option WebRTCPeerHandle
  isConnected : Bool
  videoSrc : Option Nat
  deriving DecidableEq

/-- RemoteFeed.disconnect: when a peer exists it is closed, the peer
reference cleared, the connected flag dropped and the video element cleared;
when no peer exists nothing happens. Returns the new component state and the
teardown effects performed. -/
def disconnect (st : RemoteFeedState) : RemoteFeedState × List CloseEffect :=
  match st.peer with
  | some p => (⟨none, false, none⟩, peerCloseEffects p)
  | none => (st, [])

/-- The ready message sent by WebRTCPeer.sendReady: from this peer (the
callee side calls it in remote-feed.tsx), to caller. -/
def readyMsg : SignalingMessage :=
  ⟨MsgType.ready, MsgData.noData, calleeId, callerId⟩

/-- An ice-candidate message as sent by the onicecandidate handler: addressed
to the opposite role. -/
def candMsg (c : Nat) (fromPeer toPeer : String) : SignalingMessage :=
  ⟨MsgType.iceCandidate, MsgData.cand c, fromPeer, toPeer⟩

/-- The closed two-peer system driven by relay delivery: the caller and
callee peer connections and the relay messages produced by the handlers that
are still in flight towards each side. -/
structure SysState where
  caller : RTCPeerConnection
  callee : RTCPeerConnection
  toCaller : List SignalingMessage
  toCallee : List SignalingMessage
  deriving DecidableEq

/-- Route messages emitted by a handler into the in-flight queues by their
to field, preserving emission order. -/
def route (s : SysState) : List SignalingMessage → SysState
  | [] => s
  | m :: rest =>
      if m.to_ = callerId then
        route { s with toCaller := s.toCaller ++ [m] } rest
      else if m.to_ = calleeId then
        route { s with toCallee := s.toCallee ++ [m] } rest
      else route s rest

/-- One delivery event of a handshake run: the ready signal reaching the
caller, the in-flight offer reaching the callee, the in-flight answer
reaching the caller, or an ice candidate reaching either side. -/
inductive HSEvent
  | ready
  | offer
  | answer
  | candToCaller (c : Nat)
  | candToCallee (c : Nat)
  deriving DecidableEq

/-- Whether an event is one of the three core handshake messages. -/
def isCore : HSEvent → Bool
  | HSEvent.ready => true
  | HSEvent.offer => true
  | HSEvent.answer => true
  | HSEvent.candToCaller _ => false
  | HSEvent.candToCallee _ => false

/-- A valid handshake ordering: exactly one ready, one offer and one answer,
in that causal order, with ice candidates interleaved arbitrarily. -/
def validOrdering (evs : List HSEvent) : Prop :=
  evs.filter isCore = [HSEvent.ready, HSEvent.offer, HSEvent.answer]

instance (evs : List HSEvent) : Decidable (validOrdering evs) := by
  unfold validOrdering; infer_instance

/-- Deliver one event: each delivery runs handleSignalingMessage of the
addressed peer to completion (the serialized dispatch of the spec concurrency
model) and routes the messages it emits. -/
def hsStep (s : SysState) : HSEvent → SysState
  | HSEvent.ready =>
      match handleSignalingMessage callerId s.caller readyMsg with
      | r => route { s with caller := r.pc } r.sent
  | HSEvent.offer =>
      match s.toCallee with
      | [] => s
      | m :: rest =>
          match handleSignalingMessage calleeId s.callee m with
          | r => route { s with callee := r.pc, toCallee := rest } r.sent
  | HSEvent.answer =>
      match s.toCaller with
      | [] => s
      | m :: rest =>
          match handleSignalingMessage callerId s.caller m with
          | r => route { s with caller := r.pc, toCaller := rest } r.sent
  | HSEvent.candToCaller c =>
      match handleSignalingMessage callerId s.caller (candMsg c calleeId callerId) with
      | r => route { s with caller := r.pc } r.sent
  | HSEvent.candToCallee c =>
      match handleSignalingMessage calleeId s.callee (candMsg c callerId calleeId) with
      | r => route { s with callee := r.pc } r.sent

/-- The negotiation-relevant core of a peer connection: everything except the
accepted candidate list, which candidate deliveries may grow without
affecting the negotiation phase. -/
structure PCCore where
  signalingState : RTCSignalingState
  localDescription : Option SessionDesc
  remoteDescription : Option SessionDesc
  sdpCounter : Nat
  deriving DecidableEq

/-- Project a peer connection to its negotiation core. -/
def RTCPeerConnection.core (pc : RTCPeerConnection) : PCCore :=
  ⟨pc.signalingState, pc.localDescription, pc.remoteDescription, pc.sdpCounter⟩

/-- The abstraction of a system state that determines the negotiation phase:
both cores and both in-flight queues. -/
structure AbsState where
  callerCore : PCCore
  calleeCore : PCCore
  toCaller : List SignalingMessage
  toCallee : List SignalingMessage
  deriving DecidableEq

/-- Abstraction map from system states. -/
def projA (s : SysState) : AbsState :=
  ⟨s.caller.core, s.callee.core, s.toCaller, s.toCallee⟩

/-- A peer has completed negotiation when its signaling state is back to
stable with both descriptions recorded. -/
def coreConnected (c : PCCore) : Bool :=
  decide (c.signalingState = RTCSignalingState.stable)
    && c.localDescription.isSome && c.remoteDescription.isSome

/-- Connectedness as a function of the abstraction. -/
def absConn (a : AbsState) : Bool :=
  coreConnected a.callerCore && coreConnected a.calleeCore

/-- The system is in the Connected phase of the negotiation state machine
when both sides have completed the description exchange: the code-level event
on which the underlying connection reports established. -/
def systemConnected (s : SysState) : Bool := absConn (projA s)

/-- Fold step that runs the system and counts transitions into Connected. -/
def runCount (p : SysState × Nat) (e : HSEvent) : SysState × Nat :=
  (hsStep p.1 e,
   p.2 + (if systemConnected p.1 = false ∧ systemConnected (hsStep p.1 e) = true
          then 1 else 0))

/-- Both peers freshly constructed, nothing in flight. -/
def initSys : SysState := ⟨pcFresh, pcFresh, [], []⟩

/-- The offer description the caller creates in a fresh handshake run. -/
def offer0 : SessionDesc := ⟨RTCSdpType.offer, 0⟩

/-- The answer description the callee creates in a fresh handshake run. -/
def answer0 : SessionDesc := ⟨RTCSdpType.answer, 0⟩

/-- Abstraction of the initial system state. -/
def absA0 : AbsState := ⟨⟨RTCSignalingState.stable, none, none, 0⟩,
                         ⟨RTCSignalingState.stable, none, none, 0⟩, [], []⟩

/-- Abstraction after the caller has handled ready. -/
def absA1 : AbsState := ⟨⟨RTCSignalingState.haveLocalOffer, some offer0, none, 1⟩,
                         ⟨RTCSignalingState.stable, none, none, 0⟩,
                         [], [offerMessage offer0]⟩

/-- Abstraction after the callee has handled the offer. -/
def absA2 : AbsState := ⟨⟨RTCSignalingState.haveLocalOffer, some offer0, none, 1⟩,
                         ⟨RTCSignalingState.stable, some answer0, some offer0, 1⟩,
                         [answerMessage answer0], []⟩

/-- Abstraction after the caller has handled the answer. -/
def absA3 : AbsState := ⟨⟨RTCSignalingState.stable, some offer0, some answer0, 1⟩,
                         ⟨RTCSignalingState.stable, some answer0, some offer0, 1⟩,
                         [], []⟩

/-- Whether the data field of a message of type offer actually carries an
offer description or an unparsable blob, as real duplicate offers do. -/
def offerData : MsgData → Bool
  | MsgData.desc d => d.descType == RTCSdpType.offer
  | _ => true

/-- Whether the data field of a message of type answer actually carries an
answer description or an unparsable blob, as real duplicate answers do. -/
def answerData : MsgData → Bool
  | MsgData.desc d => d.descType == RTCSdpType.answer
  | _ => true

/-- A stale offer left over from a previous session, addressed to the callee. -/
def staleOffer : SignalingMessage :=
  ⟨MsgType.offer, MsgData.desc ⟨RTCSdpType.offer, 7⟩, callerId, calleeId⟩

/-- A relay collection holding only the stale offer, as seeded before init. -/
def staleStore : List MessageDoc := [⟨0, staleOffer⟩]

/-- A callee peer connection that has already accepted a remote offer and not
yet completed its answer: a remote proposal is outstanding. -/
def pcMidOffer : RTCPeerConnection :=
  ⟨RTCSignalingState.haveRemoteOffer, none, some ⟨RTCSdpType.offer, 5⟩, [], 0⟩

/-- A duplicate delivery of the same offer already accepted by pcMidOffer. -/
def dupOfferMsg : SignalingMessage :=
  ⟨MsgType.offer, MsgData.desc ⟨RTCSdpType.offer, 5⟩, callerId, calleeId⟩

/-- A caller peer connection with a local offer outstanding. -/
def pcHaveLocal : RTCPeerConnection :=
  ⟨RTCSignalingState.haveLocalOffer, some ⟨RTCSdpType.offer, 0⟩, none, [], 1⟩

/-- A peer connection whose negotiation has already completed. -/
def pcConnected : RTCPeerConnection :=
  ⟨RTCSignalingState.stable, some ⟨RTCSdpType.offer, 0⟩, some ⟨RTCSdpType.answer, 0⟩, [], 1⟩

/-- A relay message addressed to all, which the spec predicate delivers. -/
def bcastMsg : SignalingMessage :=
  ⟨MsgType.ready, MsgData.noData, callerId, "all"⟩

/-- The stored document holding bcastMsg. -/
def bcastDoc : MessageDoc := ⟨3, bcastMsg⟩

/-- A peer with both a data channel and a live listener, the normal state at
teardown time. -/
def fullPeer : WebRTCPeerHandle := ⟨true, true⟩

/-- A stored answer addressed to the caller, arriving at a freshly
constructed caller: processing it makes setRemoteDescription throw. -/
def lateAnswerDoc : MessageDoc :=
  ⟨9, ⟨MsgType.answer, MsgData.desc ⟨RTCSdpType.answer, 3⟩, calleeId, callerId⟩⟩

/-- Splitting a list at the first element its filter keeps. -/
theorem filter_eq_cons_split {α : Type} (p : α → Bool) :
    ∀ (l : List α) (a : α) (r : List α), l.filter p = a :: r →
      ∃ l1 l2, l = l1 ++ a :: l2 ∧ (∀ x ∈ l1, p x = false) ∧ l2.filter p = r := by
  intro l
  induction l with
  | nil => intro a r h; simp at h
  | cons x t ih =>
    intro a r h
    cases hx : p x with
    | true =>
        rw [List.filter_cons, if_pos hx] at h
        injection h with h1 h2
        subst h1
        exact ⟨[], t, rfl, by simp, h2⟩
    | false =>
        rw [List.filter_cons, if_neg (by simp [hx])] at h
        obtain ⟨l1, l2, rfl, hall, hf⟩ := ih a r h
        refine ⟨x :: l1, l2, rfl, ?_, hf⟩
        intro y hy
        rcases List.mem_cons.mp hy with rfl | hy2
        · exact hx
        · exact hall y hy2

/-- Candidate deliveries never change the negotiation abstraction: an early
candidate is rejected by the connection (error caught by the handler), a
late one only grows the candidate list. -/
theorem hsStep_cand (s : SysState) (e : HSEvent) (he : isCore e = false) :
    projA (hsStep s e) = projA s := by
  obtain ⟨⟨ss1, ld1, rd1, cd1, ct1⟩, ⟨ss2, ld2, rd2, cd2, ct2⟩, q1, q2⟩ := s
  cases e with
  | ready => simp [isCore] at he
  | offer => simp [isCore] at he
  | answer => simp [isCore] at he
  | candToCaller c => cases rd1 <;> rfl
  | candToCallee c => cases rd2 <;> rfl

/-- Delivering the ready signal from the initial abstraction: the caller
creates and stores the offer and emits it towards the callee. -/
theorem hsStep_ready (s : SysState) (ha : projA s = absA0) :
    projA (hsStep s HSEvent.ready) = absA1 := by
  obtain ⟨⟨ss1, ld1, rd1, cd1, ct1⟩, ⟨ss2, ld2, rd2, cd2, ct2⟩, q1, q2⟩ := s
  simp only [projA, RTCPeerConnection.core, absA0, AbsState.mk.injEq, PCCore.mk.injEq] at ha
  obtain ⟨⟨h1, h2, h3, h4⟩, ⟨h5, h6, h7, h8⟩, h9, h10⟩ := ha
  subst h1 h2 h3 h4 h5 h6 h7 h8 h9 h10
  rfl

/-- Delivering the in-flight offer: the callee records the remote offer,
creates and stores the answer and emits it towards the caller. -/
theorem hsStep_offer (s : SysState) (ha : projA s = absA1) :
    projA (hsStep s HSEvent.offer) = absA2 := by
  obtain ⟨⟨ss1, ld1, rd1, cd1, ct1⟩, ⟨ss2, ld2, rd2, cd2, ct2⟩, q1, q2⟩ := s
  simp only [projA, RTCPeerConnection.core, absA1, AbsState.mk.injEq, PCCore.mk.injEq] at ha
  obtain ⟨⟨h1, h2, h3, h4⟩, ⟨h5, h6, h7, h8⟩, h9, h10⟩ := ha
  subst h1 h2 h3 h4 h5 h6 h7 h8 h9 h10
  rfl

/-- Delivering the in-flight answer: the caller records the remote answer,
completing the description exchange on both sides. -/
theorem hsStep_answer (s : SysState) (ha : projA s = absA2) :
    projA (hsStep s HSEvent.answer) = absA3 := by
  obtain ⟨⟨ss1, ld1, rd1, cd1, ct1⟩, ⟨ss2, ld2, rd2, cd2, ct2⟩, q1, q2⟩ := s
  simp only [projA, RTCPeerConnection.core, absA2, AbsState.mk.injEq, PCCore.mk.injEq] at ha
  obtain ⟨⟨h1, h2, h3, h4⟩, ⟨h5, h6, h7, h8⟩, h9, h10⟩ := ha
  subst h1 h2 h3 h4 h5 h6 h7 h8 h9 h10
  rfl

/-- A run of candidate-only deliveries preserves the abstraction and adds no
Connected entries. -/
theorem runCount_cand_run :
    ∀ (l : List HSEvent), (∀ x ∈ l, isCore x = false) →
      ∀ (p : SysState × Nat),
        projA (l.foldl runCount p).1 = projA p.1 ∧ (l.foldl runCount p).2 = p.2 := by
  intro l
  induction l with
  | nil => intro _ p; exact ⟨rfl, rfl⟩
  | cons x t ih =>
    intro hl p
    obtain ⟨s, n⟩ := p
    have hx : isCore x = false := hl x (List.mem_cons_self x t)
    have hstep : projA (hsStep s x) = projA s := hsStep_cand s x hx
    have hconn : systemConnected (hsStep s x) = systemConnected s := by
      unfold systemConnected; rw [hstep]
    have hrc : runCount (s, n) x = (hsStep s x, n) := by
      unfold runCount
      rw [hconn]
      cases h : systemConnected s <;> simp [h]
    have ht : ∀ y ∈ t, isCore y = false := fun y hy => hl y (List.mem_cons_of_mem x hy)
    rw [List.foldl_cons, hrc]
    obtain ⟨ha, hb⟩ := ih ht (hsStep s x, n)
    exact ⟨ha.trans hstep, hb⟩

/-- The ready delivery does not enter Connected. -/
theorem runCount_ready (p : SysState × Nat) (ha : projA p.1 = absA0) :
    projA (runCount p HSEvent.ready).1 = absA1 ∧ (runCount p HSEvent.ready).2 = p.2 := by
  obtain ⟨s, n⟩ := p
  have h1 : projA (hsStep s HSEvent.ready) = absA1 := hsStep_ready s ha
  have hc0 : systemConnected s = false := by
    unfold systemConnected; rw [ha]; rfl
  have hc1 : systemConnected (hsStep s HSEvent.ready) = false := by
    unfold systemConnected; rw [h1]; rfl
  unfold runCount
  refine ⟨h1, ?_⟩
  rw [hc0, hc1]
  simp

/-- The offer delivery does not enter Connected (the caller is still
awaiting the answer). -/
theorem runCount_offer (p : SysState × Nat) (ha : projA p.1 = absA1) :
    projA (runCount p HSEvent.offer).1 = absA2 ∧ (runCount p HSEvent.offer).2 = p.2 := by
  obtain ⟨s, n⟩ := p
  have h1 : projA (hsStep s HSEvent.offer) = absA2 := hsStep_offer s ha
  have hc0 : systemConnected s = false := by
    unfold systemConnected; rw [ha]; rfl
  have hc1 : systemConnected (hsStep s HSEvent.offer) = false := by
    unfold systemConnected; rw [h1]; rfl
  unfold runCount
  refine ⟨h1, ?_⟩
  rw [hc0, hc1]
  simp

/-- The answer delivery enters Connected, incrementing the entry count. -/
theorem runCount_answer (p : SysState × Nat) (ha : projA p.1 = absA2) :
    projA (runCount p HSEvent.answer).1 = absA3 ∧ (runCount p HSEvent.answer).2 = p.2 + 1 := by
  obtain ⟨s, n⟩ := p
  have h1 : projA (hsStep s HSEvent.answer) = absA3 := hsStep_answer s ha
  have hc0 : systemConnected s = false := by
    unfold systemConnected; rw [ha]; rfl
  have hc1 : systemConnected (hsStep s HSEvent.answer) = true := by
    unfold systemConnected; rw [h1]; rfl
  unfold runCount
  refine ⟨h1, ?_⟩
  rw [hc0, hc1]
  simp

/-- C1: for every sequence of incoming relay messages that forms a valid
handshake ordering (one ready, one offer, one answer in causal order, with
ice candidates interleaved arbitrarily), running the negotiation message
handler over the sequence drives the two-peer system into the Connected
phase, and it enters Connected exactly once. -/
theorem handshake_reaches_connected_exactly_once (evs : List HSEvent)
    (h : validOrdering evs) :
    systemConnected ((evs.foldl runCount (initSys, 0)).1) = true ∧
    (evs.foldl runCount (initSys, 0)).2 = 1 := by
  unfold validOrdering at h
  obtain ⟨l1, r1, rfl, hl1, hr1⟩ :=
    filter_eq_cons_split isCore evs HSEvent.ready _ h
  obtain ⟨l2, r2, rfl, hl2, hr2⟩ :=
    filter_eq_cons_split isCore r1 HSEvent.offer _ hr1
  obtain ⟨l3, r3, rfl, hl3, hr3⟩ :=
    filter_eq_cons_split isCore r2 HSEvent.answer _ hr2
  have hl4 : ∀ x ∈ r3, isCore x = false := by
    intro x hx
    have := List.filter_eq_nil_iff.mp hr3 x hx
    simpa using this
  rw [List.foldl_append, List.foldl_cons, List.foldl_append, List.foldl_cons,
      List.foldl_append, List.foldl_cons]
  obtain ⟨a1, b1⟩ := runCount_cand_run l1 hl1 (initSys, 0)
  have ha1 : projA (List.foldl runCount (initSys, 0) l1).1 = absA0 := by
    rw [a1]; rfl
  obtain ⟨a2, b2⟩ := runCount_ready _ ha1
  obtain ⟨a3, b3⟩ :=
    runCount_cand_run l2 hl2 (runCount (List.foldl runCount (initSys, 0) l1) HSEvent.ready)
  obtain ⟨a4, b4⟩ := runCount_offer _ (a3.trans a2)
  obtain ⟨a5, b5⟩ :=
    runCount_cand_run l3 hl3
      (runCount (List.foldl runCount
        (runCount (List.foldl runCount (initSys, 0) l1) HSEvent.ready) l2) HSEvent.offer)
  obtain ⟨a6, b6⟩ := runCount_answer _ (a5.trans a4)
  obtain ⟨a7, b7⟩ :=
    runCount_cand_run r3 hl4
      (runCount (List.foldl runCount
        (runCount (List.foldl runCount
          (runCount (List.foldl runCount (initSys, 0) l1) HSEvent.ready) l2)
         HSEvent.offer) l3) HSEvent.answer)
  constructor
  · unfold systemConnected
    rw [a7, a6]
    rfl
  · rw [b7, b6, b5, b4, b3, b2, b1]

/-- Witness for C1 at a concrete valid ordering with candidates interleaved
before, between and after the core messages. -/
theorem handshake_reaches_connected_exactly_once_witness :
    systemConnected (([HSEvent.candToCallee 3, HSEvent.ready, HSEvent.candToCaller 4,
        HSEvent.offer, HSEvent.candToCallee 5, HSEvent.answer,
        HSEvent.candToCaller 6].foldl runCount (initSys, 0)).1) = true ∧
    ([HSEvent.candToCallee 3, HSEvent.ready, HSEvent.candToCaller 4,
        HSEvent.offer, HSEvent.candToCallee 5, HSEvent.answer,
        HSEvent.candToCaller 6].foldl runCount (initSys, 0)).2 = 1 :=
  handshake_reaches_connected_exactly_once _ (by decide)

/-- C2: evaluation at the failing input. A stale offer addressed to this
peer, already present in the relay collection when init is called, is handed
to onMessage: init starts the listener before purging, and the initial
snapshot of a Firestore listener reports every pre-existing document as an
added change, so the stale offer reaches onMessage (and handling it performs
a state-machine transition and emits an answer) rather than being deleted
unprocessed as the claim states. -/
theorem stale_message_triggers_onMessage :
    (signalingInit calleeId staleStore).2 = [staleOffer] ∧
    (handleSignalingMessage calleeId pcFresh staleOffer).pc ≠ pcFresh ∧
    (handleSignalingMessage calleeId pcFresh staleOffer).sent ≠ [] := by
  refine ⟨rfl, ?_, ?_⟩ <;> decide

/-- C3 counterexample: a duplicate offer delivered while a remote proposal is
outstanding (the signaling state is not stable) is re-accepted by the handler
of the current revision, which has no signaling-state guard: the connection
state changes and a fresh answer is emitted, so the duplicate is not a
no-op. -/
theorem duplicate_offer_midstate_changes_state :
    pcMidOffer.signalingState ≠ RTCSignalingState.stable ∧
    (handleSignalingMessage calleeId pcMidOffer dupOfferMsg).pc ≠ pcMidOffer ∧
    (handleSignalingMessage calleeId pcMidOffer dupOfferMsg).sent ≠ [] := by
  refine ⟨?_, ?_, ?_⟩ <;> decide

/-- C3 amended: the current handler accepts an offer whenever the underlying
connection permits (stable or have-remote-offer, even when one was already
accepted); only an offer arriving while a local offer is outstanding leaves
the connection state unchanged, because setRemoteDescription rejects it and
the catch clause swallows the error without emitting anything. -/
theorem offer_during_local_offer_leaves_state_unchanged
    (peerId : String) (pc : RTCPeerConnection) (data : MsgData) (f t : String)
    (hst : pc.signalingState = RTCSignalingState.haveLocalOffer)
    (hd : offerData data = true) :
    (handleSignalingMessage peerId pc ⟨MsgType.offer, data, f, t⟩).pc = pc ∧
    (handleSignalingMessage peerId pc ⟨MsgType.offer, data, f, t⟩).sent = [] := by
  cases data with
  | noData => simp [handleSignalingMessage, tryHandle, setRemoteDescription]
  | cand c => simp [handleSignalingMessage, tryHandle, setRemoteDescription]
  | desc d =>
      obtain ⟨dt, ds⟩ := d
      simp only [offerData, beq_iff_eq] at hd
      subst hd
      simp [handleSignalingMessage, tryHandle, setRemoteDescription, hst]

/-- Witness for the amended C3 at a caller holding a local offer. -/
theorem offer_during_local_offer_unchanged_witness :
    (handleSignalingMessage callerId pcHaveLocal dupOfferMsg).pc = pcHaveLocal ∧
    (handleSignalingMessage callerId pcHaveLocal dupOfferMsg).sent = [] :=
  offer_during_local_offer_leaves_state_unchanged callerId pcHaveLocal
    (MsgData.desc ⟨RTCSdpType.offer, 5⟩) callerId calleeId (by decide) (by decide)

/-- C4: an answer received while no local offer is outstanding, including
after negotiation has already completed, is discarded: the connection state
is unchanged and nothing is emitted; the rejection from setRemoteDescription
is caught inside the handler and does not propagate to the caller. -/
theorem answer_without_local_offer_discarded
    (peerId : String) (pc : RTCPeerConnection) (data : MsgData) (f t : String)
    (hst : pc.signalingState ≠ RTCSignalingState.haveLocalOffer)
    (hd : answerData data = true) :
    (handleSignalingMessage peerId pc ⟨MsgType.answer, data, f, t⟩).pc = pc ∧
    (handleSignalingMessage peerId pc ⟨MsgType.answer, data, f, t⟩).sent = [] := by
  cases data with
  | noData => simp [handleSignalingMessage, tryHandle, setRemoteDescription]
  | cand c => simp [handleSignalingMessage, tryHandle, setRemoteDescription]
  | desc d =>
      obtain ⟨dt, ds⟩ := d
      simp only [answerData, beq_iff_eq] at hd
      subst hd
      cases hss : pc.signalingState with
      | haveLocalOffer => exact absurd hss hst
      | stable => simp [handleSignalingMessage, tryHandle, setRemoteDescription, hss]
      | haveRemoteOffer => simp [handleSignalingMessage, tryHandle, setRemoteDescription, hss]

/-- Witness for C4 at a caller whose negotiation has already completed. -/
theorem answer_without_local_offer_discarded_witness :
    (handleSignalingMessage callerId pcConnected
        ⟨MsgType.answer, MsgData.desc ⟨RTCSdpType.answer, 3⟩, calleeId, callerId⟩).pc
      = pcConnected ∧
    (handleSignalingMessage callerId pcConnected
        ⟨MsgType.answer, MsgData.desc ⟨RTCSdpType.answer, 3⟩, calleeId, callerId⟩).sent
      = [] :=
  answer_without_local_offer_discarded callerId pcConnected
    (MsgData.desc ⟨RTCSdpType.answer, 3⟩) calleeId callerId (by decide) (by decide)

/-- C5 counterexample: sendData with no channel yet, and sendData on a
channel still connecting, both return normally with nothing handed to send
and no error raised or returned, refuting the claimed explicit error. -/
theorem sendData_not_open_raises_no_error :
    sendData none 5 = ([], none) ∧
    sendData (some ⟨RTCDataChannelState.connecting⟩) 5 = ([], none) := by
  exact ⟨rfl, rfl⟩

/-- C5 amended: attempting to send while the channel is missing or not open
silently drops the payload: nothing is sent or queued and no error is raised
or returned to the caller. -/
theorem sendData_not_open_silently_drops (dc : Option RTCDataChannel) (d : Json)
    (h : ∀ c, dc = some c → c.readyState ≠ RTCDataChannelState.open_) :
    sendData dc d = ([], none) := by
  cases dc with
  | none => rfl
  | some c =>
      cases hc : c.readyState with
      | open_ => exact absurd hc (h c rfl)
      | connecting => simp [sendData, hc]
      | closing => simp [sendData, hc]
      | closed => simp [sendData, hc]

/-- Witness for the amended C5 with no channel created yet. -/
theorem sendData_not_open_silently_drops_witness :
    sendData none 7 = ([], none) :=
  sendData_not_open_silently_drops none 7 (fun c h => by cases h)

/-- C6: a malformed data-channel payload is never delivered: the registered
callback is not invoked with it and the channel is untouched, and the parse
failure surfaces on an error path distinct from normal delivery (in this
revision the exception escaping the onmessage handler). -/
theorem malformed_payload_not_delivered (dc : RTCDataChannel) (raw : String)
    (h : parseJson raw = none) :
    dataChannelOnMessage dc true raw = (dc, [], some "SyntaxError") := by
  simp [dataChannelOnMessage, h]

/-- Witness for C6 on a payload that does not parse. -/
theorem malformed_payload_not_delivered_witness :
    dataChannelOnMessage ⟨RTCDataChannelState.open_⟩ true "spell" =
      (⟨RTCDataChannelState.open_⟩, [], some "SyntaxError") :=
  malformed_payload_not_delivered ⟨RTCDataChannelState.open_⟩ "spell" (by decide)

/-- C7 counterexample: a message addressed to all satisfies the delivery
predicate stated by the spec, but the listener of the current revision only
checks that to equals the own peer id: neither peer hands it to onMessage and
the document stays in the store, refuting the claimed equivalence (and a
message addressed to other is likewise delivered to neither participant). -/
theorem broadcast_message_not_delivered :
    specDelivers calleeId bcastMsg = true ∧
    listenerOnAdded calleeId [bcastDoc] bcastDoc = ([bcastDoc], []) ∧
    listenerOnAdded callerId [bcastDoc] bcastDoc = ([bcastDoc], []) := by
  refine ⟨?_, ?_, ?_⟩ <;> decide

/-- C7 amended: the relay listener invokes onMessage and then deletes the
document exactly when the to field equals the own peer id; any other
document, including ones addressed to all or to other, is left untouched. -/
theorem listener_delivers_iff_addressed_to_self
    (peerId : String) (store : List MessageDoc) (doc : MessageDoc) :
    ((listenerOnAdded peerId store doc).2 = [doc.msg] ↔ doc.msg.to_ = peerId) ∧
    (doc.msg.to_ ≠ peerId → listenerOnAdded peerId store doc = (store, [])) := by
  unfold listenerOnAdded
  by_cases h : doc.msg.to_ = peerId
  · simp [h]
  · simp [h]

/-- Witness for the amended C7: the document addressed to all is untouched. -/
theorem listener_delivers_iff_addressed_to_self_witness :
    listenerOnAdded calleeId [bcastDoc] bcastDoc = ([bcastDoc], []) :=
  (listener_delivers_iff_addressed_to_self calleeId [bcastDoc] bcastDoc).2 (by decide)

/-- C8: disconnect is idempotent: after any call the peer reference is
cleared, so an immediately repeated call returns the same state and performs
no teardown effect, and a call with no prior connect (no peer ever created)
is a no-op with no effects and no error. -/
theorem disconnect_idempotent (st : RemoteFeedState) (b : Bool) (v : Option Nat) :
    disconnect (disconnect st).1 = ((disconnect st).1, []) ∧
    disconnect ⟨none, b, v⟩ = (⟨none, b, v⟩, []) := by
  constructor
  · cases h : st.peer <;> simp [disconnect, h]
  · rfl

/-- C9 counterexample: at a peer with a data channel and a live listener the
teardown trace of close is data channel, then peer connection, then listener
unsubscribe: the relay listener is stopped last, not first, refuting the
claimed ordering. -/
theorem close_stops_listener_last :
    peerCloseEffects fullPeer =
      [CloseEffect.closeDataChannel, CloseEffect.closePeerConnection,
       CloseEffect.stopListener] ∧
    ¬ List.indexOf CloseEffect.stopListener (peerCloseEffects fullPeer) <
        List.indexOf CloseEffect.closePeerConnection (peerCloseEffects fullPeer) := by
  refine ⟨?_, ?_⟩ <;> decide

/-- C9 amended: teardown releases the data transport first when present, then
the peer connection, and stops the relay listener last: strictly after the
connection release, and as the final teardown effect. -/
theorem close_order_transport_connection_listener
    (st : RemoteFeedState) (p : WebRTCPeerHandle)
    (hp : st.peer = some p) (hl : p.hasListener = true) :
    List.indexOf CloseEffect.closePeerConnection (disconnect st).2 <
      List.indexOf CloseEffect.stopListener (disconnect st).2 ∧
    ((disconnect st).2).getLast? = some CloseEffect.stopListener := by
  obtain ⟨hdc, hls⟩ := p
  simp only at hl
  subst hl
  simp only [disconnect, hp]
  cases hdc <;> decide

/-- Witness for the amended C9 at a fully built peer. -/
theorem close_order_witness :
    List.indexOf CloseEffect.closePeerConnection
        (disconnect ⟨some fullPeer, true, some 1⟩).2 <
      List.indexOf CloseEffect.stopListener
        (disconnect ⟨some fullPeer, true, some 1⟩).2 ∧
    ((disconnect ⟨some fullPeer, true, some 1⟩).2).getLast? =
      some CloseEffect.stopListener :=
  close_order_transport_connection_listener ⟨some fullPeer, true, some 1⟩ fullPeer rfl rfl

/-- C10: the relay listener callback never sees an exception from message
processing: handleSignalingMessage runs its whole switch inside try/catch, so
the listener-level step is total for every peer id, connection state and
message, and whenever the try block throws (ill-timed setRemoteDescription,
rejected addIceCandidate, malformed description payload) the handler returns
the state at the throw point with the error caught and logged. -/
theorem handleSignalingMessage_catches_all_errors
    (peerId : String) (pc : RTCPeerConnection) (store : List MessageDoc)
    (doc : MessageDoc) :
    (processRelayMessage peerId pc store doc).isOk = true ∧
    (∀ pc2 ms e, tryHandle peerId pc doc.msg = Except.error (pc2, ms, e) →
      handleSignalingMessage peerId pc doc.msg = ⟨pc2, ms, some e⟩) := by
  constructor
  · unfold processRelayMessage
    split <;> rfl
  · intro pc2 ms e h
    unfold handleSignalingMessage
    rw [h]

/-- Witness for C10 at an answer arriving at a fresh caller, where the try
block throws and the handler catches. -/
theorem handleSignalingMessage_catches_all_errors_witness :
    (processRelayMessage callerId pcFresh staleStore lateAnswerDoc).isOk = true ∧
    handleSignalingMessage callerId pcFresh lateAnswerDoc.msg =
      ⟨pcFresh, [], some RTCError.invalidState⟩ :=
  ⟨(handleSignalingMessage_catches_all_errors callerId pcFresh staleStore lateAnswerDoc).1,
   (handleSignalingMessage_catches_all_errors callerId pcFresh staleStore lateAnswerDoc).2
     pcFresh [] RTCError.invalidState (by rfl)⟩

end SpellVision
